import Mathlib

/-!
Shallow embedding of the decode-and-correlate core of heplify
(src/decoder/decoder.go, src/decoder/sip.go and the correlation file),
together with theorems settling the spec claims.

Byte sequences ([]byte in Go) are modelled as `List Nat` (each element a
byte value); Go strings that only flow through ASCII-level operations are
modelled as Lean `String`.  The time-bounded caches (freecache) are
modelled as association lists recording (key, value, TTL-at-insertion);
`Set` never fails in the model (freecache only fails on oversized entries,
which no claim exercises) and `Get` returns the most recent binding.
-/

namespace Heplify

/-- Bytes of an ASCII string literal, for writing concrete payloads. -/
def strBytes (s : String) : List Nat := s.data.map Char.toNat

/-- Whether `pre` is a prefix of `l` (generic, executable). -/
def leadsWith {α : Type} [DecidableEq α] : List α → List α → Bool
  | [], _ => true
  | _ :: _, [] => false
  | a :: as, b :: bs => a = b && leadsWith as bs

/-- Model of `bytes.Index(hay, pat)`: index of the first occurrence of `pat` in
`hay`, or -1 if absent (0 when `pat` is empty), as in Go. -/
def bytesIndex (hay pat : List Nat) : Int :=
  match (List.range (hay.length + 1)).find? (fun i => leadsWith pat (hay.drop i)) with
  | some i => (i : Int)
  | none => -1

/-- Go slice `l[a:b]` (elements `a .. b-1`); `b` arrives as a Go `int`. -/
def goSlice (l : List Nat) (a : Nat) (b : Int) : List Nat :=
  (l.take b.toNat).drop a

/-- Go slice `l[a:]`. -/
def goSliceFrom (l : List Nat) (a : Int) : List Nat :=
  l.drop a.toNat

/-- A TTL cache: list of (key, value, TTL recorded at insertion). -/
def Cache : Type := List (List Nat × List Nat × Nat)

instance : DecidableEq Cache := by
  unfold Cache; infer_instance

/-- Model of `cache.Get(k)`: the most recently set value for `k`, if any. -/
def cacheGet (c : Cache) (k : List Nat) : Option (List Nat) :=
  match c.find? (fun e => e.1 = k) with
  | some e => some e.2.1
  | none => none

/-- Model of `cache.Set(k, v, ttl)`. -/
def cacheSet (c : Cache) (k v : List Nat) (ttl : Nat) : Cache :=
  (k, v, ttl) :: c

/-- Replace the last byte of a buffer by `f` of it (the Go code writes
`ipPort.Bytes()[lastNum] = byte(uint32(b)+1)`; bytes wrap mod 256). -/
def bumpLastByte (l : List Nat) : List Nat :=
  l.dropLast ++ [((l.getLast?).getD 0 + 1) % 256]

/-- Model of `cacheSDPIPPort` from the correlation file: extracts the SDP
connection IP, an RTCP port (explicit `a=rtcp:` attribute, else the
`m=audio` port with its last digit byte incremented) and the Call-ID, and
on full success sets SDPCache[ip++port] = callID with TTL 120.  Any
failed sub-extraction returns with the cache unchanged.  The cache is
threaded explicitly; the returned cache is the new SDPCache state. -/
def cacheSDPIPPort (payload : List Nat) (sdpCache : Cache) : Cache :=
  let posSDPIP := bytesIndex payload (strBytes "c=IN IP")
  let posSDPPort := bytesIndex payload (strBytes "m=audio ")
  if 0 < posSDPIP ∧ 0 < posSDPPort then
    let restIP := goSliceFrom payload posSDPIP
    let posRestIP := bytesIndex restIP (strBytes "\r\n")
    -- Minimum IPv4 length of "c=IN IP4 1.1.1.1" = 16
    if posRestIP ≥ 16 then
      let ipPart := goSlice restIP ((strBytes "c=IN IP").length + 2) posRestIP
      let posRTCPPort := bytesIndex payload (strBytes "a=rtcp:")
      let portPart : Option (List Nat) :=
        if 0 < posRTCPPort then
          let restRTCPPort := goSliceFrom payload posRTCPPort
          -- Minimum RTCP port length of "a=rtcp:1000" = 11
          let posRestRTCPPort := bytesIndex restRTCPPort (strBytes "\r\n")
          if posRestRTCPPort ≥ 11 then
            some (goSlice restRTCPPort (strBytes "a=rtcp:").length posRestRTCPPort)
          else none
        else
          let restPort := goSliceFrom payload posSDPPort
          -- Minimum RTP port length of "m=audio 1000" = 12
          let posRestPort := bytesIndex restPort (strBytes " RTP")
          if posRestPort ≥ 12 then
            -- the port is appended to the buffer already holding the IP and
            -- the last byte of the buffer is incremented; as the port slice is
            -- nonempty this increments the last byte of the port
            some (bumpLastByte (goSlice restPort (strBytes "m=audio ").length posRestPort))
          else none
      match portPart with
      | none => sdpCache
      | some port =>
        let callIDPart : Option (List Nat) :=
          let posCallID1 := bytesIndex payload (strBytes "Call-ID: ")
          if 0 < posCallID1 then
            let restCallID := goSliceFrom payload posCallID1
            -- Minimum Call-ID length of "Call-ID: a" = 10
            let posRestCallID := bytesIndex restCallID (strBytes "\r\n")
            if posRestCallID ≥ 10 then
              some (goSlice restCallID (strBytes "Call-ID: ").length posRestCallID)
            else none
          else
            let posCallID2 := bytesIndex payload (strBytes "Call-ID:")
            if 0 < posCallID2 then
              let restCallID := goSliceFrom payload posCallID2
              -- Minimum Call-ID length of "Call-ID:a" = 9
              let posRestCallID := bytesIndex restCallID (strBytes "\r\n")
              if posRestCallID ≥ 9 then
                some (goSlice restCallID (strBytes "Call-ID:").length posRestCallID)
              else none
            else
              let posID := bytesIndex payload (strBytes "i: ")
              if 0 < posID then
                let restID := goSliceFrom payload posID
                -- Minimum Call-ID length of "i: a" = 4
                let posRestID := bytesIndex restID (strBytes "\r\n")
                if posRestID ≥ 4 then
                  some (goSlice restID (strBytes "i: ").length posRestID)
                else none
              else none
        match callIDPart with
        | none => sdpCache
        | some callID => cacheSet sdpCache (ipPart ++ port) callID 120
    else sdpCache
  else sdpCache

/-- Decimal digit character. -/
def digitChar (n : Nat) : Char := Char.ofNat (48 + n)

/-- Decimal digits of `n` (fuel-driven; `fuel = n + 1` always suffices). -/
def natDigits : Nat → Nat → List Char
  | 0, _ => []
  | fuel + 1, n =>
    if n < 10 then [digitChar n]
    else natDigits fuel (n / 10) ++ [digitChar (n % 10)]

/-- Model of `strconv.Itoa` for the non-negative values that reach it (ports). -/
def itoa (n : Nat) : String := String.mk (natDigits (n + 1) n)

/-- Model of `correlateRTCP` from the correlation file.  The external
`protos.ParseRTCP` boundary is passed in as its decoded output
`(keyRTCP, jsonRTCP, info)`; `srcIP.String()` is likewise received as a
string.  Returns the `(payload, correlationID, recordType)` triple
together with the new RTCPCache state (the SDPCache is only read). -/
def correlateRTCP (rtcpCache sdpCache : Cache) (srcIPString : String)
    (srcPort : Nat) (keyRTCP : Option (List Nat)) (jsonRTCP : Option (List Nat))
    (info : String) :
    (Option (List Nat) × Option (List Nat) × Nat) × Cache :=
  let keySDP := strBytes (srcIPString ++ itoa srcPort)
  if info ≠ "" ∧ jsonRTCP = none then ((none, none, 0), rtcpCache)
  else
    -- `Get(keyRTCP)` hit together with `keyRTCP != nil`
    match keyRTCP.bind (cacheGet rtcpCache) with
    | some corrID => ((jsonRTCP, some corrID, 5), rtcpCache)
    | none =>
      match cacheGet sdpCache keySDP with
      | some corrID =>
        -- a nil Go key behaves as the empty byte key in the model
        ((jsonRTCP, some corrID, 5), cacheSet rtcpCache (keyRTCP.getD []) corrID 43200)
      | none => ((none, none, 0), rtcpCache)

/-- Model of `correlateLOG` from the correlation file: heuristic Call-ID
extraction from a free-text log line. -/
def correlateLOG (payload : List Nat) :
    Option (List Nat) × Option (List Nat) × Nat :=
  let posID1 := bytesIndex payload (strBytes "ID=")
  if 0 < posID1 then
    let restID := goSliceFrom payload posID1
    -- Minimum Call-ID length of "ID=a" = 4
    let posRestID := bytesIndex restID (strBytes " ")
    if posRestID ≥ 4 then
      (some payload, some (goSlice restID (strBytes "ID=").length posRestID), 100)
    else if 8 ≤ restID.length ∧ restID.length ≤ 64 then
      (some payload, some (restID.drop 3), 100)
    else (none, none, 0)
  else
    let posID2 := bytesIndex payload (strBytes ": [")
    if 0 < posID2 then
      let restID := goSliceFrom payload posID2
      let callID : Option (List Nat) :=
        let posPort := bytesIndex restID (strBytes " port ")
        if posPort ≥ 8 then
          some (goSlice restID (strBytes ": [").length posPort)
        else
          let posBracket := bytesIndex restID (strBytes "]: ")
          if posBracket ≥ 4 then
            some (goSlice restID (strBytes ": [").length posBracket)
          else none
      match callID with
      | none => (none, none, 0)
      | some cid =>
        if 8 ≤ cid.length ∧ cid.length ≤ 64 then (some payload, some cid, 100)
        else (none, none, 0)
    else (none, none, 0)

/-- A value of the loosely-typed NG dictionary (`interface{}` in Go). -/
inductive NGValue : Type
  | bytes (b : List Nat)
  | str (s : String)
  | num (n : Int)
deriving DecidableEq

/-- The decoded NG message body (`interface{}`): either a string-keyed
dictionary or something else.  Go map iteration order is unspecified; the
model iterates the listed entries in order. -/
inductive NGRaw : Type
  | dict (entries : List (String × NGValue))
  | nondict
deriving DecidableEq

/-- Outcome of `correlateNG`: a run-time panic (the unchecked type
assertion `rawMapValue.([]byte)` on a non-byte value) or a normal return
with the result triple and the new SIPCache state. -/
inductive NGOutcome : Type
  | panics
  | ret (res : Option (List Nat) × Option (List Nat) × Nat) (sipCache : Cache)
deriving DecidableEq

/-- Model of `json.Marshal` of an NG dictionary value (external encoder; its exact
bytes never influence control flow, only the returned data payload). -/
def ngMarshal : NGValue → List Nat
  | .bytes b => b
  | .str s => strBytes s
  | .num n => strBytes (if n < 0 then "-" ++ itoa n.natAbs else itoa n.natAbs)

/-- The dictionary loop body of `correlateNG`. -/
def ngLoop (sipCache : Cache) (cookie : List Nat) :
    List (String × NGValue) → NGOutcome
  | [] => .ret (none, none, 0) sipCache
  | (k, v) :: rest =>
    if k = "call-id" then
      -- unchecked type assertion rawMapValue.([]byte)
      match v with
      | .bytes callid => ngLoop (cacheSet sipCache cookie callid 10) cookie rest
      | _ => .panics
    else if k = "SSRC" then
      let data := ngMarshal v
      match cacheGet sipCache cookie with
      | some corrID => .ret (some data, some corrID, 100) sipCache
      | none => ngLoop sipCache cookie rest
    else ngLoop sipCache cookie rest

/-- Model of `correlateNG` from the correlation file.  The external `unmarshalNG`
boundary is passed in as its output: `none` models a decode error (the
function then returns no-match), `some (cookie, raw)` a success. -/
def correlateNG (sipCache : Cache)
    (decoded : Option (List Nat × NGRaw)) : NGOutcome :=
  match decoded with
  | none => .ret (none, none, 0) sipCache
  | some (cookie, raw) =>
    match raw with
    | .dict entries => ngLoop sipCache cookie entries
    | .nondict => .ret (none, none, 0) sipCache

/-- ASCII upper-casing of one character (`strings.ToUpper` on the ASCII
range that SIP tokens use). -/
def toUpperChar (c : Char) : Char :=
  if 'a' ≤ c ∧ c ≤ 'z' then Char.ofNat (c.toNat - 32) else c

/-- ASCII lower-casing of one character (`strings.ToLower`). -/
def toLowerChar (c : Char) : Char :=
  if 'A' ≤ c ∧ c ≤ 'Z' then Char.ofNat (c.toNat + 32) else c

/-- Model of `strings.ToUpper`. -/
def toUpperStr (s : String) : String := String.mk (s.data.map toUpperChar)

/-- Model of `strings.ToLower`. -/
def toLowerStr (s : String) : String := String.mk (s.data.map toLowerChar)

/-- Model of `bytes.Trim(l, cutset)`: strip leading and trailing characters that
belong to `cs`. -/
def trimList (cs : List Char) (l : List Char) : List Char :=
  ((l.dropWhile (· ∈ cs)).reverse.dropWhile (· ∈ cs)).reverse

/-- Split off everything before the first occurrence of `sep`, together
with the remainder after it; `none` when `sep` does not occur. -/
def splitOnce (sep : Char) : List Char → Option (List Char × List Char)
  | [] => none
  | c :: rest =>
    if c = sep then some ([], rest)
    else
      match splitOnce sep rest with
      | none => none
      | some (a, b) => some (c :: a, b)

/-- Model of `strings.SplitN(s, " ", 3)`: at most three fields, the last keeping
any further separators. -/
def splitN3 (s : String) : List String :=
  match splitOnce ' ' s.data with
  | none => [s]
  | some (a, r) =>
    match splitOnce ' ' r with
    | none => [String.mk a, String.mk r]
    | some (b, r2) => [String.mk a, String.mk b, String.mk r2]

/-- Index of the first occurrence of character `c` (as `bytes.Index` with
a one-byte pattern), -1 when absent. -/
def charIndex (l : List Char) (c : Char) : Int :=
  match l.findIdx? (· = c) with
  | some i => (i : Int)
  | none => -1

/-- Error taxonomy of the SIP decoder (`fmt.Errorf` values in the source,
one constructor per distinct construction site). -/
inductive SIPError : Type
  | malformedFirstLine (line : String)
  | unknownVersion (v : String)
  | unknownMethod (m : String)
  | numericParse (s : String)
deriving DecidableEq

/-- The digits of a list of decimal digit characters, as a number. -/
def digitsToNat (l : List Char) : Nat :=
  l.foldl (fun acc c => acc * 10 + (c.toNat - 48)) 0

/-- Model of `strconv.Atoi`: optional sign followed by at least one digit. -/
def atoi (s : String) : Except SIPError Int :=
  let (sign, rest) :=
    match s.data with
    | '+' :: r => ((1 : Int), r)
    | '-' :: r => ((-1 : Int), r)
    | r => ((1 : Int), r)
  if ¬rest.isEmpty ∧ rest.all Char.isDigit then .ok (sign * digitsToNat rest)
  else .error (.numericParse s)

/-- Model of `GetSIPVersion` (sip.go): case-insensitive match against the two
versions; `SIPVersion` is a `uint8`, modelled as `Nat`. -/
def GetSIPVersion (version : String) : Except SIPError Nat :=
  if toUpperStr version = "SIP/1.0" then .ok 1
  else if toUpperStr version = "SIP/2.0" then .ok 2
  else .error (.unknownVersion version)

/-- Model of `SIPVersion.String` (sip.go); unknown values default to "SIP/2.0". -/
def SIPVersionString (sv : Nat) : String :=
  match sv with
  | 1 => "SIP/1.0"
  | 2 => "SIP/2.0"
  | _ => "SIP/2.0"

/-- Model of `GetSIPMethod` (sip.go): case-insensitive match against the closed
15-method enumeration; `SIPMethod` is a `uint16`, modelled as `Nat`. -/
def GetSIPMethod (method : String) : Except SIPError Nat :=
  if toUpperStr method = "INVITE" then .ok 1
  else if toUpperStr method = "ACK" then .ok 2
  else if toUpperStr method = "BYE" then .ok 3
  else if toUpperStr method = "CANCEL" then .ok 4
  else if toUpperStr method = "OPTIONS" then .ok 5
  else if toUpperStr method = "REGISTER" then .ok 6
  else if toUpperStr method = "PRACK" then .ok 7
  else if toUpperStr method = "SUBSCRIBE" then .ok 8
  else if toUpperStr method = "NOTIFY" then .ok 9
  else if toUpperStr method = "PUBLISH" then .ok 10
  else if toUpperStr method = "INFO" then .ok 11
  else if toUpperStr method = "REFER" then .ok 12
  else if toUpperStr method = "MESSAGE" then .ok 13
  else if toUpperStr method = "UPDATE" then .ok 14
  else if toUpperStr method = "PING" then .ok 15
  else .error (.unknownMethod method)

/-- Model of `SIPMethod.String` (sip.go). -/
def SIPMethodString (sm : Nat) : String :=
  match sm with
  | 1 => "INVITE"
  | 2 => "ACK"
  | 3 => "BYE"
  | 4 => "CANCEL"
  | 5 => "OPTIONS"
  | 6 => "REGISTER"
  | 7 => "PRACK"
  | 8 => "SUBSCRIBE"
  | 9 => "NOTIFY"
  | 10 => "PUBLISH"
  | 11 => "INFO"
  | 12 => "REFER"
  | 13 => "MESSAGE"
  | 14 => "UPDATE"
  | 15 => "PING"
  | _ => "Unknown method"

/-- The SIP struct (sip.go): version, header multimap (lower-cased names,
values in arrival order), request method, response fields, and the body
left after the blank line (`BaseLayer.Payload`). -/
structure SIP : Type where
  version : Nat := 0
  headers : List (String × List String) := []
  method : Nat := 0
  isResponse : Bool := false
  responseCode : Int := 0
  responseStatus : String := ""
  payload : List Char := []
deriving DecidableEq

/-- Model of `s.Headers[name] = append(s.Headers[name], value)` on the assoc-list
model of the Go map (key order immaterial to every lookup). -/
def addHeader : List (String × List String) → String → String → List (String × List String)
  | [], n, v => [(n, [v])]
  | (k, vs) :: rest, n, v =>
    if k = n then (k, vs ++ [v]) :: rest else (k, vs) :: addHeader rest n v

/-- Model of `ParseFirstLine` (sip.go).  Mutation of the Go receiver is modelled
by returning the updated struct next to the optional error; on the error
paths the fields assigned before the failure keep their assigned values,
exactly as the Go in-place assignments leave them. -/
def ParseFirstLine (s : SIP) (line : String) : SIP × Option SIPError :=
  let splits := splitN3 line
  -- We must have at least 3 parts
  if splits.length < 3 then (s, some (.malformedFirstLine line))
  else
    let f0 := splits.headD ""
    let f1 := (splits.drop 1).headD ""
    let f2 := (splits.drop 2).headD ""
    if leadsWith "SIP".data f0.data then
      let s1 := { s with isResponse := true }
      match GetSIPVersion f0 with
      | .error e => ({ s1 with version := 0 }, some e)
      | .ok v =>
        let s2 := { s1 with version := v }
        match atoi f1 with
        | .error e => ({ s2 with responseCode := 0 }, some e)
        | .ok code => ({ s2 with responseCode := code, responseStatus := f2 }, none)
    else
      match GetSIPMethod f0 with
      | .error e => ({ s with method := 0 }, some e)
      | .ok m =>
        let s1 := { s with method := m }
        match GetSIPVersion f2 with
        | .error e => ({ s1 with version := 0 }, some e)
        | .ok v => ({ s1 with version := v }, none)

/-- The next `'\n'`-terminated line (delimiter included) and the rest;
`none` when no delimiter remains (`ReadBytes` returns `io.EOF` and the
decode loop discards the partial data and stops). -/
def takeLine : List Char → Option (List Char × List Char)
  | [] => none
  | c :: rest =>
    if c = '\n' then some ([c], rest)
    else
      match takeLine rest with
      | some (ln, r) => some (c :: ln, r)
      | none => none

/-- The line loop of `DecodeFromBytes` (sip.go).  `fuel` only bounds the
recursion; every iteration consumes at least one character, so
`fuel = length + 1` never runs out before the `io.EOF` break. -/
def decodeLoop : Nat → SIP → Nat → List Char → SIP × Option SIPError
  | 0, s, _, _ => (s, none)
  | fuel + 1, s, countLines, rest =>
    match takeLine rest with
    | none => (s, none)
    | some (line0, rest') =>
      let line := trimList ['\r', '\n'] line0
      if line.isEmpty then
        -- empty line: the remaining bytes become the body
        ({ s with payload := rest' }, none)
      else if countLines = 0 then
        match ParseFirstLine s (String.mk line) with
        | (s', some e) => (s', some e)
        | (s', none) => decodeLoop fuel s' (countLines + 1) rest'
      else
        let idx := charIndex line ':'
        let s' :=
          if idx ≥ 0 then
            let name := toLowerStr (String.mk (trimList [' '] (line.take idx.toNat)))
            let value := String.mk (trimList [' '] (line.drop (idx.toNat + 1)))
            { s with headers := addHeader s.headers name value }
          else s
        decodeLoop fuel s' (countLines + 1) rest'

/-- Model of `DecodeFromBytes` (sip.go): strip leading/trailing newlines, then run
the line loop on a fresh `NewSIP`. -/
def DecodeFromBytes (data : List Char) : SIP × Option SIPError :=
  let d := trimList ['\n'] data
  decodeLoop (d.length + 1) {} 0 d

/-- Model of `decodeSIP` (sip.go) as seen by `Process`: on a decode error gopacket
records a failure layer instead of a SIP layer, so the type
assertion in the pipeline fails; `none` models that. -/
def decodeSIP (data : String) : Option SIP :=
  match DecodeFromBytes data.data with
  | (s, none) => some s
  | (_, some _) => none

/-- The normalized packet record (decoder.go `Packet`). -/
structure Packet : Type where
  host : String := ""
  tsec : Nat := 0
  tmsec : Nat := 0
  srcip : Nat := 0
  dstip : Nat := 0
  sport : Nat := 0
  dport : Nat := 0
  payload : String := ""
  sipHeader : List (String × List String) := []
deriving DecidableEq

/-- A decoded layer as handed over by the external packet-layer library
(only the accessors the pipeline uses). -/
inductive Layer : Type
  | ipv4 (srcIP dstIP : List Nat)
  | udp (srcPort dstPort : Nat) (payload : String)
  | tcp (srcPort dstPort : Nat) (payload : String)
  | other
deriving DecidableEq

/-- Big-endian 32-bit read of the first four bytes. -/
def bigEndian4 (l : List Nat) : Nat :=
  l.headD 0 * 16777216 + (l.drop 1).headD 0 * 65536 +
    (l.drop 2).headD 0 * 256 + (l.drop 3).headD 0

/-- Model of `ip2int` (decoder.go). -/
def ip2int (ip : List Nat) : Nat :=
  if ip.length = 16 then bigEndian4 (ip.drop 12) else bigEndian4 ip

/-- The layer walk of `Process` (decoder.go), with the default
configuration the claims address (`Cfg.HepFilter` empty, so the content
filter is skipped, and `Cfg.Reasm` false, so defragmentation is skipped).
The Go `pkt` is a pointer: field writes made before a `break` stay
visible to later iterations, hence the state threading.  On a UDP or TCP
layer the transport fields are recorded, then the payload is decoded as
SIP: on success the packet returns at once, on failure the `break`
continues with the remaining layers. -/
def processLayers (pkt : Packet) : List Layer → Option Packet
  | [] => none
  | layer :: rest =>
    match layer with
    | .ipv4 s d => processLayers { pkt with srcip := ip2int s, dstip := ip2int d } rest
    | .udp sp dp pl =>
      let pkt' := { pkt with sport := sp, dport := dp, payload := pl }
      match decodeSIP pl with
      | some sip => some { pkt' with sipHeader := sip.headers }
      | none => processLayers pkt' rest
    | .tcp sp dp pl =>
      let pkt' := { pkt with sport := sp, dport := dp, payload := pl }
      match decodeSIP pl with
      | some sip => some { pkt' with sipHeader := sip.headers }
      | none => processLayers pkt' rest
    | .other => processLayers pkt rest

/-- Model of `Process` (decoder.go): build the packet skeleton from the capture
metadata and walk the decoded layers; `none` is the Go `nil, nil` return. -/
def Process (host : String) (tsec tmsec : Nat) (layers : List Layer) : Option Packet :=
  processLayers { host := host, tsec := tsec, tmsec := tmsec } layers

/-! ## Helper lemmas -/

theorem splitOnce_append (sep : Char) (pre rest : List Char) (h : sep ∉ pre) :
    splitOnce sep (pre ++ sep :: rest) = some (pre, rest) := by
  induction pre with
  | nil => simp [splitOnce]
  | cons c cs ih =>
    have hc : c ≠ sep := fun e => h (e ▸ List.mem_cons_self c cs)
    have hcs : sep ∉ cs := fun m => h (List.mem_cons_of_mem c m)
    simp [splitOnce, hc, ih hcs]

theorem leadsWith_map (f : Char → Char) (pre l : List Char)
    (h : leadsWith pre l = true) : leadsWith (pre.map f) (l.map f) = true := by
  induction pre generalizing l with
  | nil => simp [leadsWith]
  | cons a as ih =>
    cases l with
    | nil => simp [leadsWith] at h
    | cons b bs =>
      simp only [leadsWith, Bool.and_eq_true, decide_eq_true_eq] at h
      simp only [List.map_cons, leadsWith, Bool.and_eq_true, decide_eq_true_eq]
      exact ⟨congrArg f h.1, ih bs h.2⟩

/-- Facts carried by a token whose upper-casing is a known literal. -/
theorem toUpper_token_facts (m lit : String) (hu : toUpperStr m = lit)
    (hsp : ' ' ∉ lit.data) (hsip : leadsWith "SIP".data lit.data = false) :
    ' ' ∉ m.data ∧ leadsWith "SIP".data m.data = false := by
  have hdata : m.data.map toUpperChar = lit.data := by rw [← hu]; rfl
  constructor
  · intro hmem
    have h1 : toUpperChar ' ' ∈ m.data.map toUpperChar :=
      List.mem_map_of_mem toUpperChar hmem
    have h2 : (' ' : Char) ∈ m.data.map toUpperChar := by
      have he : toUpperChar ' ' = ' ' := by decide
      rwa [he] at h1
    exact hsp (hdata ▸ h2)
  · by_contra hb
    have ht : leadsWith "SIP".data m.data = true := by
      revert hb; cases leadsWith "SIP".data m.data <;> simp
    have h1 := leadsWith_map toUpperChar _ _ ht
    have h2 : "SIP".data.map toUpperChar = "SIP".data := by decide
    rw [h2, hdata] at h1
    simp [h1] at hsip

/-- A successfully parsed method token has no space, does not carry the
literal "SIP" prefix, and upper-cases to the canonical method string. -/
theorem getSIPMethod_facts (m : String) (mc : Nat)
    (h : GetSIPMethod m = .ok mc) :
    ' ' ∉ m.data ∧ leadsWith "SIP".data m.data = false ∧
      SIPMethodString mc = toUpperStr m := by
  unfold GetSIPMethod at h
  by_cases h1 : toUpperStr m = "INVITE"
  · rw [if_pos h1] at h
    injection h with hmc
    subst hmc
    exact ⟨(toUpper_token_facts m _ h1 (by decide) (by decide)).1,
           (toUpper_token_facts m _ h1 (by decide) (by decide)).2, h1.symm⟩
  rw [if_neg h1] at h
  by_cases h2 : toUpperStr m = "ACK"
  · rw [if_pos h2] at h
    injection h with hmc
    subst hmc
    exact ⟨(toUpper_token_facts m _ h2 (by decide) (by decide)).1,
           (toUpper_token_facts m _ h2 (by decide) (by decide)).2, h2.symm⟩
  rw [if_neg h2] at h
  by_cases h3 : toUpperStr m = "BYE"
  · rw [if_pos h3] at h
    injection h with hmc
    subst hmc
    exact ⟨(toUpper_token_facts m _ h3 (by decide) (by decide)).1,
           (toUpper_token_facts m _ h3 (by decide) (by decide)).2, h3.symm⟩
  rw [if_neg h3] at h
  by_cases h4 : toUpperStr m = "CANCEL"
  · rw [if_pos h4] at h
    injection h with hmc
    subst hmc
    exact ⟨(toUpper_token_facts m _ h4 (by decide) (by decide)).1,
           (toUpper_token_facts m _ h4 (by decide) (by decide)).2, h4.symm⟩
  rw [if_neg h4] at h
  by_cases h5 : toUpperStr m = "OPTIONS"
  · rw [if_pos h5] at h
    injection h with hmc
    subst hmc
    exact ⟨(toUpper_token_facts m _ h5 (by decide) (by decide)).1,
           (toUpper_token_facts m _ h5 (by decide) (by decide)).2, h5.symm⟩
  rw [if_neg h5] at h
  by_cases h6 : toUpperStr m = "REGISTER"
  · rw [if_pos h6] at h
    injection h with hmc
    subst hmc
    exact ⟨(toUpper_token_facts m _ h6 (by decide) (by decide)).1,
           (toUpper_token_facts m _ h6 (by decide) (by decide)).2, h6.symm⟩
  rw [if_neg h6] at h
  by_cases h7 : toUpperStr m = "PRACK"
  · rw [if_pos h7] at h
    injection h with hmc
    subst hmc
    exact ⟨(toUpper_token_facts m _ h7 (by decide) (by decide)).1,
           (toUpper_token_facts m _ h7 (by decide) (by decide)).2, h7.symm⟩
  rw [if_neg h7] at h
  by_cases h8 : toUpperStr m = "SUBSCRIBE"
  · rw [if_pos h8] at h
    injection h with hmc
    subst hmc
    exact ⟨(toUpper_token_facts m _ h8 (by decide) (by decide)).1,
           (toUpper_token_facts m _ h8 (by decide) (by decide)).2, h8.symm⟩
  rw [if_neg h8] at h
  by_cases h9 : toUpperStr m = "NOTIFY"
  · rw [if_pos h9] at h
    injection h with hmc
    subst hmc
    exact ⟨(toUpper_token_facts m _ h9 (by decide) (by decide)).1,
           (toUpper_token_facts m _ h9 (by decide) (by decide)).2, h9.symm⟩
  rw [if_neg h9] at h
  by_cases h10 : toUpperStr m = "PUBLISH"
  · rw [if_pos h10] at h
    injection h with hmc
    subst hmc
    exact ⟨(toUpper_token_facts m _ h10 (by decide) (by decide)).1,
           (toUpper_token_facts m _ h10 (by decide) (by decide)).2, h10.symm⟩
  rw [if_neg h10] at h
  by_cases h11 : toUpperStr m = "INFO"
  · rw [if_pos h11] at h
    injection h with hmc
    subst hmc
    exact ⟨(toUpper_token_facts m _ h11 (by decide) (by decide)).1,
           (toUpper_token_facts m _ h11 (by decide) (by decide)).2, h11.symm⟩
  rw [if_neg h11] at h
  by_cases h12 : toUpperStr m = "REFER"
  · rw [if_pos h12] at h
    injection h with hmc
    subst hmc
    exact ⟨(toUpper_token_facts m _ h12 (by decide) (by decide)).1,
           (toUpper_token_facts m _ h12 (by decide) (by decide)).2, h12.symm⟩
  rw [if_neg h12] at h
  by_cases h13 : toUpperStr m = "MESSAGE"
  · rw [if_pos h13] at h
    injection h with hmc
    subst hmc
    exact ⟨(toUpper_token_facts m _ h13 (by decide) (by decide)).1,
           (toUpper_token_facts m _ h13 (by decide) (by decide)).2, h13.symm⟩
  rw [if_neg h13] at h
  by_cases h14 : toUpperStr m = "UPDATE"
  · rw [if_pos h14] at h
    injection h with hmc
    subst hmc
    exact ⟨(toUpper_token_facts m _ h14 (by decide) (by decide)).1,
           (toUpper_token_facts m _ h14 (by decide) (by decide)).2, h14.symm⟩
  rw [if_neg h14] at h
  by_cases h15 : toUpperStr m = "PING"
  · rw [if_pos h15] at h
    injection h with hmc
    subst hmc
    exact ⟨(toUpper_token_facts m _ h15 (by decide) (by decide)).1,
           (toUpper_token_facts m _ h15 (by decide) (by decide)).2, h15.symm⟩
  rw [if_neg h15] at h
  exact Except.noConfusion h

/-- A successfully parsed version token upper-cases to the canonical
version string rendered by `SIPVersionString`. -/
theorem getSIPVersion_facts (v : String) (vc : Nat)
    (h : GetSIPVersion v = .ok vc) : SIPVersionString vc = toUpperStr v := by
  unfold GetSIPVersion at h
  by_cases h1 : toUpperStr v = "SIP/1.0"
  · rw [if_pos h1] at h
    injection h with hvc
    subst hvc
    exact h1.symm
  rw [if_neg h1] at h
  by_cases h2 : toUpperStr v = "SIP/2.0"
  · rw [if_pos h2] at h
    injection h with hvc
    subst hvc
    exact h2.symm
  rw [if_neg h2] at h
  exact Except.noConfusion h

theorem splitN3_three (m uri v : String) (hm : ' ' ∉ m.data)
    (hu : ' ' ∉ uri.data) :
    splitN3 (m ++ " " ++ uri ++ " " ++ v) = [m, uri, v] := by
  have hdata : (m ++ " " ++ uri ++ " " ++ v).data =
      m.data ++ ' ' :: (uri.data ++ ' ' :: v.data) := by
    simp [String.data_append]
  simp only [splitN3, hdata, splitOnce_append ' ' m.data _ hm,
    splitOnce_append ' ' uri.data _ hu]

/-! ## Claim theorems -/

/-- C7: every start line that splits into fewer than 3 whitespace-separated
tokens makes `ParseFirstLine` fail with a `MalformedFirstLine` error, and
the SIP message state (version, method, response code, response status) is
returned untouched. -/
theorem parseFirstLine_short_line_malformed (s : SIP) (line : String)
    (h : (splitN3 line).length < 3) :
    ParseFirstLine s line = (s, some (.malformedFirstLine line)) := by
  simp only [ParseFirstLine]
  rw [if_pos h]

/-- Witness for C7 at the two-token line "SIP/2.0 200". -/
theorem parseFirstLine_short_line_malformed_witness :
    (splitN3 "SIP/2.0 200").length < 3 ∧
    ParseFirstLine {} "SIP/2.0 200" =
      ({}, some (.malformedFirstLine "SIP/2.0 200")) :=
  ⟨by decide, parseFirstLine_short_line_malformed {} "SIP/2.0 200" (by decide)⟩

/-- C8: for every valid request line `METHOD uri VERSION` (method in the
15-method enumeration, version SIP/1.0 or SIP/2.0, both in any letter
case, the uri free of spaces), decoding succeeds and re-serializing the
parsed method and version yields the upper-cased method token and the
canonical (upper-cased) version string. -/
theorem parseFirstLine_request_roundtrip (s : SIP) (m uri v : String)
    (mc vc : Nat) (hm : GetSIPMethod m = .ok mc)
    (hv : GetSIPVersion v = .ok vc) (hu : ' ' ∉ uri.data) :
    ParseFirstLine s (m ++ " " ++ uri ++ " " ++ v) =
      ({ s with method := mc, version := vc }, none) ∧
    SIPMethodString mc = toUpperStr m ∧
    SIPVersionString vc = toUpperStr v := by
  obtain ⟨hmsp, hmsip, hmstr⟩ := getSIPMethod_facts m mc hm
  have hvstr := getSIPVersion_facts v vc hv
  refine ⟨?_, hmstr, hvstr⟩
  have hsplit := splitN3_three m uri v hmsp hu
  simp only [ParseFirstLine, hsplit, hmsip, hm, hv, List.length_cons,
    List.headD_cons, List.drop_succ_cons, List.drop_zero]
  norm_num

/-- Witness for C8 at the line "invite sip:bob@example.com sip/2.0". -/
theorem parseFirstLine_request_roundtrip_witness :
    GetSIPMethod "invite" = .ok 1 ∧ GetSIPVersion "sip/2.0" = .ok 2 ∧
    ParseFirstLine {} ("invite" ++ " " ++ "sip:bob@example.com" ++ " " ++ "sip/2.0") =
      ({ method := 1, version := 2 }, none) ∧
    SIPMethodString 1 = toUpperStr "invite" ∧
    SIPVersionString 2 = toUpperStr "sip/2.0" := by
  have h := parseFirstLine_request_roundtrip {} "invite" "sip:bob@example.com"
    "sip/2.0" 1 2 (by rfl) (by rfl) (by decide)
  exact ⟨by rfl, by rfl, h.1, h.2.1, h.2.2⟩

/-- Helper: with no Call-ID marker at a positive offset in any of its
three forms, `cacheSDPIPPort` leaves the cache unchanged. -/
theorem cacheSDPIPPort_no_callid_marker (p : List Nat) (c : Cache)
    (h2 : bytesIndex p (strBytes "Call-ID: ") ≤ 0)
    (h3 : bytesIndex p (strBytes "Call-ID:") ≤ 0)
    (h4 : bytesIndex p (strBytes "i: ") ≤ 0) :
    cacheSDPIPPort p c = c := by
  simp only [cacheSDPIPPort]
  by_cases h0 : 0 < bytesIndex p (strBytes "c=IN IP") ∧ 0 < bytesIndex p (strBytes "m=audio ")
  · rw [if_pos h0]
    by_cases hIP : bytesIndex (goSliceFrom p (bytesIndex p (strBytes "c=IN IP"))) (strBytes "\r\n") ≥ 16
    · rw [if_pos hIP]
      split
      · rfl
      · rw [if_neg (by omega), if_neg (by omega), if_neg (by omega)]
    · rw [if_neg hIP]
  · rw [if_neg h0]

/-- C3: a SIP payload whose body carries
`c=IN IP4 10.0.0.5\r\nm=audio 30000 RTP/AVP 0\r\n`, no `a=rtcp:`
attribute and a `Call-ID: abc` header makes `cacheSDPIPPort` derive port
30001 (last digit byte of the m=audio port incremented) and write
SDPCache["10.0.0.530001"] = "abc" with TTL 120, whatever the prior cache
state. -/
theorem cacheSDPIPPort_writes_derived_key (c : Cache) :
    cacheSDPIPPort
      (strBytes
        "INVITE sip:x SIP/2.0\r\nCall-ID: abc\r\n\r\nc=IN IP4 10.0.0.5\r\nm=audio 30000 RTP/AVP 0\r\n")
      c =
    cacheSet c (strBytes "10.0.0.530001") (strBytes "abc") 120 := rfl

/-- C4: every failed minimum-length sub-extraction inside
`cacheSDPIPPort` (short IP segment, short `a=rtcp:` construct, short
`m=audio` construct, short or absent Call-ID in any of its three forms)
aborts the whole operation and leaves the SDP cache unchanged. -/
theorem cacheSDPIPPort_aborts_on_malformed (p : List Nat) (c : Cache) :
    (bytesIndex (goSliceFrom p (bytesIndex p (strBytes "c=IN IP"))) (strBytes "\r\n") < 16 →
      cacheSDPIPPort p c = c) ∧
    (0 < bytesIndex p (strBytes "a=rtcp:") →
      bytesIndex (goSliceFrom p (bytesIndex p (strBytes "a=rtcp:"))) (strBytes "\r\n") < 11 →
      cacheSDPIPPort p c = c) ∧
    (bytesIndex p (strBytes "a=rtcp:") ≤ 0 →
      bytesIndex (goSliceFrom p (bytesIndex p (strBytes "m=audio "))) (strBytes " RTP") < 12 →
      cacheSDPIPPort p c = c) ∧
    (0 < bytesIndex p (strBytes "Call-ID: ") →
      bytesIndex (goSliceFrom p (bytesIndex p (strBytes "Call-ID: "))) (strBytes "\r\n") < 10 →
      cacheSDPIPPort p c = c) ∧
    (bytesIndex p (strBytes "Call-ID: ") ≤ 0 →
      0 < bytesIndex p (strBytes "Call-ID:") →
      bytesIndex (goSliceFrom p (bytesIndex p (strBytes "Call-ID:"))) (strBytes "\r\n") < 9 →
      cacheSDPIPPort p c = c) ∧
    (bytesIndex p (strBytes "Call-ID: ") ≤ 0 →
      bytesIndex p (strBytes "Call-ID:") ≤ 0 →
      0 < bytesIndex p (strBytes "i: ") →
      bytesIndex (goSliceFrom p (bytesIndex p (strBytes "i: "))) (strBytes "\r\n") < 4 →
      cacheSDPIPPort p c = c) ∧
    (bytesIndex p (strBytes "Call-ID: ") ≤ 0 →
      bytesIndex p (strBytes "Call-ID:") ≤ 0 →
      bytesIndex p (strBytes "i: ") ≤ 0 →
      cacheSDPIPPort p c = c) := by
  refine ⟨?_, ?_, ?_, ?_, ?_, ?_, ?_⟩
  · intro hs
    simp only [cacheSDPIPPort]
    by_cases h0 : 0 < bytesIndex p (strBytes "c=IN IP") ∧ 0 < bytesIndex p (strBytes "m=audio ")
    · rw [if_pos h0, if_neg (by omega)]
    · rw [if_neg h0]
  · intro hr hs
    simp only [cacheSDPIPPort]
    by_cases h0 : 0 < bytesIndex p (strBytes "c=IN IP") ∧ 0 < bytesIndex p (strBytes "m=audio ")
    · rw [if_pos h0]
      by_cases hIP : bytesIndex (goSliceFrom p (bytesIndex p (strBytes "c=IN IP"))) (strBytes "\r\n") ≥ 16
      · rw [if_pos hIP, if_pos hr, if_neg (by omega)]
      · rw [if_neg hIP]
    · rw [if_neg h0]
  · intro hr hs
    simp only [cacheSDPIPPort]
    by_cases h0 : 0 < bytesIndex p (strBytes "c=IN IP") ∧ 0 < bytesIndex p (strBytes "m=audio ")
    · rw [if_pos h0]
      by_cases hIP : bytesIndex (goSliceFrom p (bytesIndex p (strBytes "c=IN IP"))) (strBytes "\r\n") ≥ 16
      · rw [if_pos hIP, if_neg (by omega), if_neg (by omega)]
      · rw [if_neg hIP]
    · rw [if_neg h0]
  · intro h4 h5
    simp only [cacheSDPIPPort]
    by_cases h0 : 0 < bytesIndex p (strBytes "c=IN IP") ∧ 0 < bytesIndex p (strBytes "m=audio ")
    · rw [if_pos h0]
      by_cases hIP : bytesIndex (goSliceFrom p (bytesIndex p (strBytes "c=IN IP"))) (strBytes "\r\n") ≥ 16
      · rw [if_pos hIP]
        split
        · rfl
        · rw [if_pos h4, if_neg (by omega)]
      · rw [if_neg hIP]
    · rw [if_neg h0]
  · intro h3 h4 h5
    simp only [cacheSDPIPPort]
    by_cases h0 : 0 < bytesIndex p (strBytes "c=IN IP") ∧ 0 < bytesIndex p (strBytes "m=audio ")
    · rw [if_pos h0]
      by_cases hIP : bytesIndex (goSliceFrom p (bytesIndex p (strBytes "c=IN IP"))) (strBytes "\r\n") ≥ 16
      · rw [if_pos hIP]
        split
        · rfl
        · rw [if_neg (by omega), if_pos h4, if_neg (by omega)]
      · rw [if_neg hIP]
    · rw [if_neg h0]
  · intro h2 h3 h4 h5
    simp only [cacheSDPIPPort]
    by_cases h0 : 0 < bytesIndex p (strBytes "c=IN IP") ∧ 0 < bytesIndex p (strBytes "m=audio ")
    · rw [if_pos h0]
      by_cases hIP : bytesIndex (goSliceFrom p (bytesIndex p (strBytes "c=IN IP"))) (strBytes "\r\n") ≥ 16
      · rw [if_pos hIP]
        split
        · rfl
        · rw [if_neg (by omega), if_neg (by omega), if_pos h4, if_neg (by omega)]
      · rw [if_neg hIP]
    · rw [if_neg h0]
  · intro h2 h3 h4
    exact cacheSDPIPPort_no_callid_marker p c h2 h3 h4

/-- Witness for C4: a payload whose IP segment before the first CRLF is
too short, and one whose `a=rtcp:` construct is too short, leave a
non-empty SDP cache untouched although port and Call-ID extract fine. -/
theorem cacheSDPIPPort_aborts_on_malformed_witness :
    bytesIndex
        (goSliceFrom (strBytes "x\r\nCall-ID: abcdefgh\r\nc=IN IP4 1.1\r\nm=audio 30000 RTP/AVP 0\r\n")
          (bytesIndex (strBytes "x\r\nCall-ID: abcdefgh\r\nc=IN IP4 1.1\r\nm=audio 30000 RTP/AVP 0\r\n")
            (strBytes "c=IN IP"))) (strBytes "\r\n") < 16 ∧
    cacheSDPIPPort (strBytes "x\r\nCall-ID: abcdefgh\r\nc=IN IP4 1.1\r\nm=audio 30000 RTP/AVP 0\r\n")
      [(strBytes "key", strBytes "val", 7)] = [(strBytes "key", strBytes "val", 7)] ∧
    cacheSDPIPPort (strBytes "x\r\nCall-ID: abcdefgh\r\nc=IN IP4 10.0.0.5\r\na=rtcp:99\r\nm=audio 30000 RTP/AVP 0\r\n")
      [(strBytes "key", strBytes "val", 7)] = [(strBytes "key", strBytes "val", 7)] :=
  ⟨by decide,
   (cacheSDPIPPort_aborts_on_malformed _ _).1 (by decide),
   (cacheSDPIPPort_aborts_on_malformed _ _).2.1 (by decide) (by decide)⟩

/-- C10: the marker searches of `cacheSDPIPPort` demand strictly positive
byte offsets, so a payload beginning with "c=IN IP" or "m=audio " is
never cached, and likewise a payload whose Call-ID markers sit at offset
0 (or are absent), even when every field is otherwise well-formed. -/
theorem cacheSDPIPPort_zero_offset_markers (p : List Nat) (c : Cache)
    (h : bytesIndex p (strBytes "c=IN IP") = 0 ∨
      bytesIndex p (strBytes "m=audio ") = 0 ∨
      (bytesIndex p (strBytes "Call-ID: ") ≤ 0 ∧
        bytesIndex p (strBytes "Call-ID:") ≤ 0 ∧
        bytesIndex p (strBytes "i: ") ≤ 0)) :
    cacheSDPIPPort p c = c := by
  rcases h with h | h | ⟨h1, h2, h3⟩
  · simp only [cacheSDPIPPort]
    rw [if_neg (by omega)]
  · simp only [cacheSDPIPPort]
    rw [if_neg (by omega)]
  · exact cacheSDPIPPort_no_callid_marker p c h1 h2 h3

/-- Witness for C10: a payload starting with the "c=IN IP" marker, and a
payload whose "Call-ID: " marker sits at offset 0, both otherwise
well-formed, leave the cache unchanged. -/
theorem cacheSDPIPPort_zero_offset_markers_witness :
    bytesIndex (strBytes "c=IN IP4 10.0.0.5\r\nm=audio 30000 RTP/AVP 0\r\nCall-ID: abcdef\r\n")
      (strBytes "c=IN IP") = 0 ∧
    cacheSDPIPPort (strBytes "c=IN IP4 10.0.0.5\r\nm=audio 30000 RTP/AVP 0\r\nCall-ID: abcdef\r\n")
      [] = [] ∧
    bytesIndex (strBytes "Call-ID: abcdef\r\nc=IN IP4 10.0.0.5\r\nm=audio 30000 RTP/AVP 0\r\n")
      (strBytes "Call-ID: ") = 0 ∧
    cacheSDPIPPort (strBytes "Call-ID: abcdef\r\nc=IN IP4 10.0.0.5\r\nm=audio 30000 RTP/AVP 0\r\n")
      [] = [] :=
  ⟨by decide,
   cacheSDPIPPort_zero_offset_markers _ _ (Or.inl (by decide)),
   by decide,
   cacheSDPIPPort_zero_offset_markers _ _ (Or.inr (Or.inr ⟨by decide, by decide, by decide⟩))⟩

/-- C1 counterexample: a UDP frame whose transport payload fails SIP
decoding (malformed first line) makes `Process` return null, not a
packet with empty SIP headers as the claim states. -/
theorem process_failed_sip_counterexample :
    decodeSIP "NOTSIP\r\nrest" = none ∧
    Process "host" 1 2
      [.ipv4 [10, 0, 0, 5] [10, 0, 0, 6], .udp 5060 5062 "NOTSIP\r\nrest"] = none :=
  ⟨by decide, by decide⟩

/-- C1 amended: when SIP decoding of the transport payload fails, the
UDP/TCP case breaks out of the switch instead of returning, so a standard
IPv4+UDP (or TCP) frame yields no NormalizedPacket at all. -/
theorem process_failed_sip_returns_none (host : String) (t1 t2 : Nat)
    (srcB dstB : List Nat) (sp dp : Nat) (pl : String)
    (h : decodeSIP pl = none) :
    Process host t1 t2 [.ipv4 srcB dstB, .udp sp dp pl] = none ∧
    Process host t1 t2 [.ipv4 srcB dstB, .tcp sp dp pl] = none := by
  constructor <;> simp [Process, processLayers, h]

/-- Witness for the amended C1 on an RTP-like payload. -/
theorem process_failed_sip_returns_none_witness :
    decodeSIP "RTP payload\nbinary" = none ∧
    Process "h" 3 4
      [.ipv4 [192, 168, 0, 1] [192, 168, 0, 2], .udp 10000 10001 "RTP payload\nbinary"] = none ∧
    Process "h" 3 4
      [.ipv4 [192, 168, 0, 1] [192, 168, 0, 2], .tcp 10000 10001 "RTP payload\nbinary"] = none :=
  ⟨by decide,
   (process_failed_sip_returns_none "h" 3 4 [192, 168, 0, 1] [192, 168, 0, 2]
      10000 10001 "RTP payload\nbinary" (by decide)).1,
   (process_failed_sip_returns_none "h" 3 4 [192, 168, 0, 1] [192, 168, 0, 2]
      10000 10001 "RTP payload\nbinary" (by decide)).2⟩

/-- C2: `correlateRTCP` first consults the RTCP cache by SSRC (a hit
answers record type 5 without touching the SDP cache or writing
anything); on a miss it consults the SDP cache by source IP string
concatenated with the source port, promotes a hit into the RTCP cache
with TTL 43200, and answers record type 5; when both miss it answers the
no-match triple. -/
theorem correlateRTCP_lookup_order (rtcpC sdpC : Cache) (ip : String)
    (port : Nat) (k j cid : List Nat) (info : String) :
    (cacheGet rtcpC k = some cid →
      correlateRTCP rtcpC sdpC ip port (some k) (some j) info =
        ((some j, some cid, 5), rtcpC)) ∧
    (cacheGet rtcpC k = none →
      cacheGet sdpC (strBytes (ip ++ itoa port)) = some cid →
      correlateRTCP rtcpC sdpC ip port (some k) (some j) info =
        ((some j, some cid, 5), cacheSet rtcpC k cid 43200)) ∧
    (cacheGet rtcpC k = none →
      cacheGet sdpC (strBytes (ip ++ itoa port)) = none →
      correlateRTCP rtcpC sdpC ip port (some k) (some j) info =
        ((none, none, 0), rtcpC)) := by
  refine ⟨fun h1 => ?_, fun h1 h2 => ?_, fun h1 h2 => ?_⟩ <;>
    simp [correlateRTCP, h1, *]

/-- Witness for C2: the promotion scenario of the spec — empty RTCP cache, SDP
cache seeded with "10.0.0.530001" -> "abc", an RTCP packet from
10.0.0.5:30001 with SSRC bytes "9999" — correlates to "abc" at record
type 5 and promotes 9999 -> "abc" with TTL 43200 into the RTCP cache,
where it is then found. -/
theorem correlateRTCP_lookup_order_witness :
    cacheGet [] (strBytes "9999") = none ∧
    cacheGet [(strBytes "10.0.0.530001", strBytes "abc", 120)]
      (strBytes ("10.0.0.5" ++ itoa 30001)) = some (strBytes "abc") ∧
    correlateRTCP [] [(strBytes "10.0.0.530001", strBytes "abc", 120)]
      "10.0.0.5" 30001 (some (strBytes "9999")) (some (strBytes "rtcpdata")) "" =
      ((some (strBytes "rtcpdata"), some (strBytes "abc"), 5),
        [(strBytes "9999", strBytes "abc", 43200)]) ∧
    cacheGet [(strBytes "9999", strBytes "abc", 43200)] (strBytes "9999") =
      some (strBytes "abc") :=
  ⟨by decide, by decide,
   (correlateRTCP_lookup_order [] [(strBytes "10.0.0.530001", strBytes "abc", 120)]
      "10.0.0.5" 30001 (strBytes "9999") (strBytes "rtcpdata") (strBytes "abc")
      "").2.1 (by decide) (by decide),
   by decide⟩

/-- C6: when the external RTCP decoder signals failure — null derived
JSON payload, which per its contract comes with a non-empty advisory —
`correlateRTCP` answers the no-match triple at once, independent of both
cache contents and without writing the RTCP cache. -/
theorem correlateRTCP_decoder_failure_no_match (rtcpC sdpC : Cache)
    (ip : String) (port : Nat) (k : Option (List Nat)) (info : String)
    (h : info ≠ "") :
    correlateRTCP rtcpC sdpC ip port k none info = ((none, none, 0), rtcpC) := by
  simp [correlateRTCP, h]

/-- Witness for C6 with both caches holding entries that would match, so
the no-match answer shows no lookup happened. -/
theorem correlateRTCP_decoder_failure_no_match_witness :
    ("rtcp decode failed" : String) ≠ "" ∧
    correlateRTCP [(strBytes "1111", strBytes "cid1", 43200)]
      [(strBytes ("1.2.3.4" ++ itoa 5), strBytes "cid2", 120)]
      "1.2.3.4" 5 (some (strBytes "1111")) none "rtcp decode failed" =
      ((none, none, 0), [(strBytes "1111", strBytes "cid1", 43200)]) :=
  ⟨by decide,
   correlateRTCP_decoder_failure_no_match [(strBytes "1111", strBytes "cid1", 43200)]
     [(strBytes ("1.2.3.4" ++ itoa 5), strBytes "cid2", 120)]
     "1.2.3.4" 5 (some (strBytes "1111")) "rtcp decode failed" (by decide)⟩

/-- C5 counterexample: `correlateLOG` requires every marker at a strictly
positive offset, so the line "ID=callid123 rest" (marker at offset 0) and
the very line of the claim ": [abc123] port 5060" (marker at offset 0) both
answer no-match instead of extracting the identifier. -/
theorem correlateLOG_counterexample :
    correlateLOG (strBytes "ID=callid123 rest") = (none, none, 0) ∧
    correlateLOG (strBytes ": [abc123] port 5060") = (none, none, 0) ∧
    correlateLOG (strBytes ": [abc123]: message") = (none, none, 0) :=
  ⟨by decide, by decide, by decide⟩

/-- C5 amended: with each marker at a strictly positive offset,
`correlateLOG` extracts "callid123" from a line containing
"ID=callid123 " (no length bound applies on that path); for the bracket
forms it extracts the bytes between ": [" and " port " (keeping any "]")
or between ": [" and "]: ", answering record type 100 only when the
extracted length lies in [8,64]; and every extraction failure answers the
no-match triple — the function is total, never an error. -/
theorem correlateLOG_amended :
    correlateLOG (strBytes "log ID=callid123 rest") =
      (some (strBytes "log ID=callid123 rest"), some (strBytes "callid123"), 100) ∧
    correlateLOG (strBytes "x: [abcdefg] port 1") =
      (some (strBytes "x: [abcdefg] port 1"), some (strBytes "abcdefg]"), 100) ∧
    correlateLOG (strBytes "x: [abcdefgh]: m") =
      (some (strBytes "x: [abcdefgh]: m"), some (strBytes "abcdefgh"), 100) ∧
    correlateLOG (strBytes "x: [abc123] port 5060") = (none, none, 0) ∧
    (∀ p : List Nat, (∃ cid, correlateLOG p = (some p, some cid, 100)) ∨
      correlateLOG p = (none, none, 0)) := by
  refine ⟨by decide, by decide, by decide, by decide, fun p => ?_⟩
  simp only [correlateLOG]
  repeat' split
  all_goals first
    | (right; rfl)
    | (left; exact ⟨_, rfl⟩)

/-- C9: the unchecked type assertion of `correlateNG` on the "call-id" value
panics when the decoded dictionary maps "call-id" to a non-byte value, so
correlateNG is not total over decoder outputs. -/
theorem correlateNG_nonbyte_callid_panics :
    correlateNG []
      (some (strBytes "cookie", .dict [("call-id", NGValue.str "not-bytes")])) =
      .panics ∧
    ¬ (∀ (sc : Cache) (d : Option (List Nat × NGRaw)),
        correlateNG sc d ≠ .panics) :=
  ⟨by decide,
   fun hall =>
     hall [] (some (strBytes "cookie", .dict [("call-id", NGValue.str "not-bytes")]))
       (by decide)⟩

end Heplify
